import Mathlib

/-!
# pedsim_simulator: the scenario reader

A shallow embedding of `ScenarioReader::readFromFile` and
`ScenarioReader::processData` (`pedsim_simulator/src/scenarioreader.cpp`),
together with the parts of the scene registry and of the streaming XML reader
they call, and the properties of the scenario compiler proved about them.

Pointers are modelled as follows.  A pointer to a waypoint or to a waiting
queue is the (immutable) element itself, wrapped in `Option` because the lookup
may hand back a null pointer.  A pointer to an agent cluster is the position of
the cluster in the registry's cluster list, so that `currentAgents` is an
`Option Nat` and a call through the pointer rewrites the cluster at that
position.
-/

namespace Pedsim

/-! ## The streaming XML reader (external library) -/

/-- Token kinds delivered by the streaming XML reader
(`QXmlStreamReader::TokenType`). -/
inductive TokenType
  | NoToken
  | Invalid
  | StartDocument
  | EndDocument
  | StartElement
  | EndElement
  | Characters
  | Comment
  | DTD
  | EntityReference
  | ProcessingInstruction
  deriving DecidableEq, Repr

/-- One token of the stream: its kind, the element name and the attributes
(both empty unless the token is an element token). -/
structure Token where
  type : TokenType
  name : String
  attributes : List (String × String)
  deriving DecidableEq, Repr

/-- A start record `<name attributes...>`. -/
def startElement (name : String) (attributes : List (String × String)) : Token :=
  ⟨TokenType.StartElement, name, attributes⟩

/-- An end record `</name>`. -/
def endElement (name : String) : Token :=
  ⟨TokenType.EndElement, name, []⟩

/-- The reader: the tokens its device will still deliver, the token delivered
last, and the error flag.  A stream-level (structural or encoding) error shows
up as a token of kind `Invalid`. -/
structure XmlStreamReader where
  device : List Token
  token : Token
  error : Bool
  deriving DecidableEq, Repr

namespace XmlStreamReader

/-- The reader after `setDevice`: positioned before the first token, no error. -/
def setDevice (dev : List Token) : XmlStreamReader :=
  ⟨dev, ⟨TokenType.NoToken, "", []⟩, false⟩

/-- Reading stops at the end of the document or once an error has occurred. -/
def atEnd (r : XmlStreamReader) : Bool :=
  r.error || r.device.isEmpty

/-- The error flag of the reader. -/
def hasError (r : XmlStreamReader) : Bool :=
  r.error

/-- Advance to the next token; an `Invalid` token raises the error flag.  (The
exhausted case is never reached from `readFromFile`, which tests `atEnd`
first.) -/
def readNext (r : XmlStreamReader) : XmlStreamReader :=
  match r.device with
  | [] => { r with token := ⟨TokenType.Invalid, "", []⟩ }
  | t :: ts => ⟨ts, t, r.error || decide (t.type = TokenType.Invalid)⟩

/-- Whether the current token is a start record. -/
def isStartElement (r : XmlStreamReader) : Bool :=
  decide (r.token.type = TokenType.StartElement)

/-- Whether the current token is an end record. -/
def isEndElement (r : XmlStreamReader) : Bool :=
  decide (r.token.type = TokenType.EndElement)

/-- The element name of the current token. -/
def name (r : XmlStreamReader) : String :=
  r.token.name

/-- The attributes of the current token. -/
def attributes (r : XmlStreamReader) : List (String × String) :=
  r.token.attributes

end XmlStreamReader

/-- The text of the first attribute called `key`, the empty text when there is
none (`QXmlStreamAttributes::value`). -/
def value (attrs : List (String × String)) (key : String) : String :=
  match attrs.find? (fun a => decide (a.1 = key)) with
  | some a => a.2
  | none => ""

/-- The numeric operations `processData` calls, none of which is in the
sources at hand, taken as parameters over an abstract type `D` of doubles: the
text-to-number parsers behind `QString::toDouble` and `QString::toInt` (`none`
when the text does not parse), the double zero, and `Ped::Tangle::fromDegree`. -/
structure Conv (D : Type) where
  zero : D
  parseDouble : String → Option D
  parseInt : String → Option Int
  fromDegree : D → D

/-- The conversion `QString::toDouble`: the parsed value, 0 when the conversion
fails. -/
def Conv.toDouble {D : Type} (cv : Conv D) (text : String) : D :=
  match cv.parseDouble text with
  | some v => v
  | none => cv.zero

/-- The conversion `QString::toInt`: the parsed value, 0 when the conversion
fails. -/
def Conv.toInt {D : Type} (cv : Conv D) (text : String) : Int :=
  match cv.parseInt text with
  | some v => v
  | none => 0

/-! ## Scene elements and the scene registry -/

/-- Modelled from the spec: the class `Obstacle` (its header is missing), a
line segment with the two endpoints (x1,y1) and (x2,y2) its constructor is
given. -/
structure Obstacle (D : Type) where
  x1 : D
  y1 : D
  x2 : D
  y2 : D
  deriving DecidableEq, Repr

/-- Modelled from the spec: the class `AreaWaypoint` (its header is missing), a
circular region with the identifier, centre (x,y) and radius its constructor is
given. -/
structure AreaWaypoint (D : Type) where
  id : String
  x : D
  y : D
  r : D
  deriving DecidableEq, Repr

/-- Modelled from the spec: the class `WaitingQueue` (its header is missing),
with the identifier, anchor position and facing direction its constructor is
given. -/
structure WaitingQueue (D : Type) where
  id : String
  position : D × D
  direction : D
  deriving DecidableEq, Repr

/-- Modelled from the spec: the class `AttractionArea` (its header is missing),
with the identifier its constructor is given and the position, size and strength
its three setters store. -/
structure AttractionArea (D : Type) where
  id : String
  position : D × D
  size : D × D
  strength : D
  deriving DecidableEq, Repr

/-- One entry of a cluster's reference list: the pointer handed to
`addWaypoint` or to `addWaitingQueue`; `none` is the null pointer. -/
inductive Ref (D : Type)
  | waypoint (w : Option (AreaWaypoint D))
  | queue (q : Option (WaitingQueue D))
  deriving DecidableEq, Repr

/-- Modelled from the spec: the class `AgentCluster` (its header and
implementation are missing): origin, agent count, spawn distribution, type tag
and the ordered list of waypoint and waiting-queue references accumulated while
the cluster is open. -/
structure AgentCluster (D : Type) where
  x : D
  y : D
  count : Int
  distribution : D × D
  type : Int
  references : List (Ref D)
  deriving DecidableEq, Repr

namespace AgentCluster

variable {D : Type}

/-- Modelled from the spec: `AgentCluster::addWaypoint` (missing) appends the
pointer it is given to the end of the reference list. -/
def addWaypoint (c : AgentCluster D) (w : Option (AreaWaypoint D)) : AgentCluster D :=
  { c with references := c.references ++ [Ref.waypoint w] }

/-- Modelled from the spec: `AgentCluster::addWaitingQueue` (missing) appends
the pointer it is given to the end of the reference list. -/
def addWaitingQueue (c : AgentCluster D) (q : Option (WaitingQueue D)) : AgentCluster D :=
  { c with references := c.references ++ [Ref.queue q] }

/-- The waypoint references of the cluster, in order. -/
def waypointRefs (c : AgentCluster D) : List (Option (AreaWaypoint D)) :=
  c.references.filterMap fun
    | Ref.waypoint w => some w
    | Ref.queue _ => none

/-- The waiting-queue references of the cluster, in order. -/
def queueRefs (c : AgentCluster D) : List (Option (WaitingQueue D)) :=
  c.references.filterMap fun
    | Ref.waypoint _ => none
    | Ref.queue q => some q

end AgentCluster

/-- Modelled from the spec: the scene registry `Scene` behind `SCENE` (its
header and implementation are missing): the collections of all elements by
kind, and the derived occupancy representation as the list of segments drawn
into it. -/
structure Scene (D : Type) where
  obstacles : List (Obstacle D)
  occupancy : List (D × D × D × D)
  waypoints : List (AreaWaypoint D)
  waitingQueues : List (WaitingQueue D)
  attractions : List (AttractionArea D)
  agentClusters : List (AgentCluster D)
  deriving DecidableEq, Repr

namespace Scene

variable {D : Type}

/-- The registry with no element. -/
def empty : Scene D :=
  ⟨[], [], [], [], [], []⟩

/-- Modelled from the spec: `Scene::addObstacle` (missing) inserts the
obstacle. -/
def addObstacle (sc : Scene D) (o : Obstacle D) : Scene D :=
  { sc with obstacles := sc.obstacles ++ [o] }

/-- Modelled from the spec: `Scene::drawObstacles` (missing) updates the
derived occupancy representation with the segment. -/
def drawObstacles (sc : Scene D) (x1 y1 x2 y2 : D) : Scene D :=
  { sc with occupancy := sc.occupancy ++ [(x1, y1, x2, y2)] }

/-- Modelled from the spec: `Scene::addWaypoint` (missing) inserts the
waypoint. -/
def addWaypoint (sc : Scene D) (w : AreaWaypoint D) : Scene D :=
  { sc with waypoints := sc.waypoints ++ [w] }

/-- Modelled from the spec: `Scene::addWaitingQueue` (missing) inserts the
waiting queue. -/
def addWaitingQueue (sc : Scene D) (q : WaitingQueue D) : Scene D :=
  { sc with waitingQueues := sc.waitingQueues ++ [q] }

/-- Modelled from the spec: `Scene::addAttraction` (missing) inserts the
attraction area. -/
def addAttraction (sc : Scene D) (a : AttractionArea D) : Scene D :=
  { sc with attractions := sc.attractions ++ [a] }

/-- Modelled from the spec: `Scene::addAgentCluster` (missing) inserts the
cluster. -/
def addAgentCluster (sc : Scene D) (c : AgentCluster D) : Scene D :=
  { sc with agentClusters := sc.agentClusters ++ [c] }

/-- Modelled from the spec: `Scene::getWaypointByName` (missing) looks the
waypoint up by identifier and returns a not-found indicator (`none`, the null
pointer) rather than throwing. -/
def getWaypointByName (sc : Scene D) (id : String) : Option (AreaWaypoint D) :=
  sc.waypoints.find? (fun w => decide (w.id = id))

/-- Modelled from the spec: `Scene::getWaitingQueueByName` (missing) looks the
waiting queue up by identifier and returns a not-found indicator (`none`, the
null pointer) rather than throwing. -/
def getWaitingQueueByName (sc : Scene D) (id : String) : Option (WaitingQueue D) :=
  sc.waitingQueues.find? (fun q => decide (q.id = id))

/-- A call through a cluster pointer, `p->addWaypoint(w)`: the cluster at
position `p` is rewritten. -/
def clusterAddWaypoint (sc : Scene D) (p : Nat) (w : Option (AreaWaypoint D)) : Scene D :=
  { sc with agentClusters := sc.agentClusters.modify (fun c => c.addWaypoint w) p }

/-- A call through a cluster pointer, `p->addWaitingQueue(q)`: the cluster at
position `p` is rewritten. -/
def clusterAddWaitingQueue (sc : Scene D) (p : Nat) (q : Option (WaitingQueue D)) : Scene D :=
  { sc with agentClusters := sc.agentClusters.modify (fun c => c.addWaitingQueue q) p }

end Scene

/-- A registry lookup that was performed, with the identifier asked for. -/
inductive Lookup
  | waypoint (id : String)
  | waitingQueue (id : String)
  deriving DecidableEq, Repr

/-! ## The scenario reader -/

/-- The state `processData` writes: the member `currentAgents` of the reader,
the global registry `SCENE`, and the record of the registry lookups performed
so far (kept only to be able to speak about them).  The member `xmlReader`,
which `processData` only reads, is passed to it separately. -/
structure State (D : Type) where
  currentAgents : Option Nat
  SCENE : Scene D
  lookups : List Lookup
  deriving DecidableEq, Repr

variable {D : Type}

/-- The state of a freshly constructed reader over a registry: no cluster is
open (`ScenarioReader::ScenarioReader`). -/
def State.init (sc : Scene D) : State D :=
  ⟨none, sc, []⟩

/-- The procedure `ScenarioReader::processData`: handle the current token of
`xmlReader`. -/
def processData (cv : Conv D) (xmlReader : XmlStreamReader) (s : State D) : State D :=
  if xmlReader.isStartElement then
    let elementName := xmlReader.name
    let elementAttributes := xmlReader.attributes
    if elementName = "scenario" ∨ elementName = "welcome" then
      s
    else if elementName = "obstacle" then
      let x1 := cv.toDouble (value elementAttributes "x1")
      let y1 := cv.toDouble (value elementAttributes "y1")
      let x2 := cv.toDouble (value elementAttributes "x2")
      let y2 := cv.toDouble (value elementAttributes "y2")
      let obs : Obstacle D := ⟨x1, y1, x2, y2⟩
      { s with SCENE := (s.SCENE.addObstacle obs).drawObstacles x1 y1 x2 y2 }
    else if elementName = "waypoint" then
      let id := value elementAttributes "id"
      let x := cv.toDouble (value elementAttributes "x")
      let y := cv.toDouble (value elementAttributes "y")
      let r := cv.toDouble (value elementAttributes "r")
      let w : AreaWaypoint D := ⟨id, x, y, r⟩
      { s with SCENE := s.SCENE.addWaypoint w }
    else if elementName = "queue" then
      let id := value elementAttributes "id"
      let x := cv.toDouble (value elementAttributes "x")
      let y := cv.toDouble (value elementAttributes "y")
      let directionValue := cv.toDouble (value elementAttributes "direction")
      let position : D × D := (x, y)
      let direction := cv.fromDegree directionValue
      let queue : WaitingQueue D := ⟨id, position, direction⟩
      { s with SCENE := s.SCENE.addWaitingQueue queue }
    else if elementName = "attraction" then
      let id := value elementAttributes "id"
      let x := cv.toDouble (value elementAttributes "x")
      let y := cv.toDouble (value elementAttributes "y")
      let width := cv.toDouble (value elementAttributes "width")
      let height := cv.toDouble (value elementAttributes "height")
      let strength := cv.toDouble (value elementAttributes "strength")
      let attraction : AttractionArea D := ⟨id, (x, y), (width, height), strength⟩
      { s with SCENE := s.SCENE.addAttraction attraction }
    else if elementName = "agent" then
      let x := cv.toDouble (value elementAttributes "x")
      let y := cv.toDouble (value elementAttributes "y")
      let n := cv.toInt (value elementAttributes "n")
      let dx := cv.toDouble (value elementAttributes "dx")
      let dy := cv.toDouble (value elementAttributes "dy")
      let type := cv.toInt (value elementAttributes "type")
      let agentCluster : AgentCluster D := ⟨x, y, n, (dx, dy), type, []⟩
      { s with
        SCENE := s.SCENE.addAgentCluster agentCluster
        currentAgents := some s.SCENE.agentClusters.length }
    else if elementName = "addwaypoint" then
      match s.currentAgents with
      | none => s
      | some p =>
        let id := value elementAttributes "id"
        { s with
          lookups := s.lookups ++ [Lookup.waypoint id]
          SCENE := s.SCENE.clusterAddWaypoint p (s.SCENE.getWaypointByName id) }
    else if elementName = "addqueue" then
      match s.currentAgents with
      | none => s
      | some p =>
        let id := value elementAttributes "id"
        { s with
          lookups := s.lookups ++ [Lookup.waitingQueue id]
          SCENE := s.SCENE.clusterAddWaitingQueue p (s.SCENE.getWaitingQueueByName id) }
    else
      s
  else if xmlReader.isEndElement then
    let elementName := xmlReader.name
    if elementName = "agent" then
      { s with currentAgents := none }
    else
      s
  else
    s

/-- The loop `while (!xmlReader.atEnd()) { xmlReader.readNext(); processData(); }`,
with a bound on the number of iterations. -/
def readLoop (cv : Conv D) : Nat → XmlStreamReader → State D → XmlStreamReader × State D
  | 0, xmlReader, s => (xmlReader, s)
  | fuel + 1, xmlReader, s =>
    if xmlReader.atEnd then (xmlReader, s)
    else readLoop cv fuel xmlReader.readNext (processData cv xmlReader.readNext s)

/-- The function `ScenarioReader::readFromFile`.  The file is `none` when it
cannot be opened, and otherwise the token sequence the reader will see; every
iteration of the loop consumes one token, so the length of that sequence bounds
the iterations.  The result is the returned flag and the state left behind. -/
def readFromFile (cv : Conv D) (file : Option (List Token)) (s : State D) : Bool × State D :=
  match file with
  | none => (false, s)
  | some dev =>
    let out := readLoop cv dev.length (XmlStreamReader.setDevice dev) s
    if out.1.hasError then (false, out.2) else (true, out.2)

/-! ## Event sequences -/

/-- The effect of `processData` when the current token is `t`. -/
def apply (cv : Conv D) (t : Token) (s : State D) : State D :=
  processData cv ⟨[], t, false⟩ s

/-- The effect of `processData` over a token sequence. -/
def feed (cv : Conv D) (toks : List Token) (s : State D) : State D :=
  toks.foldl (fun s t => apply cv t s) s

/-- The tokens the loop of `readFromFile` reads: all of them up to and
including the first `Invalid` one. -/
def consumed : List Token → List Token
  | [] => []
  | t :: ts => if t.type = TokenType.Invalid then [t] else t :: consumed ts

/-! ## Reading a token sequence as scenario records -/

/-- The waypoint a token declares, when it is a `waypoint` start record. -/
def declaredWaypoint (cv : Conv D) (t : Token) : Option (AreaWaypoint D) :=
  if t.type = TokenType.StartElement ∧ t.name = "waypoint" then
    some ⟨value t.attributes "id", cv.toDouble (value t.attributes "x"),
      cv.toDouble (value t.attributes "y"), cv.toDouble (value t.attributes "r")⟩
  else none

/-- The waiting queue a token declares, when it is a `queue` start record. -/
def declaredQueue (cv : Conv D) (t : Token) : Option (WaitingQueue D) :=
  if t.type = TokenType.StartElement ∧ t.name = "queue" then
    some ⟨value t.attributes "id",
      (cv.toDouble (value t.attributes "x"), cv.toDouble (value t.attributes "y")),
      cv.fromDegree (cv.toDouble (value t.attributes "direction"))⟩
  else none

/-- The waypoints declared by the `waypoint` start records of a token sequence,
in order. -/
def declaredWaypoints (cv : Conv D) (toks : List Token) : List (AreaWaypoint D) :=
  toks.filterMap (declaredWaypoint cv)

/-- The waiting queues declared by the `queue` start records of a token
sequence, in order. -/
def declaredQueues (cv : Conv D) (toks : List Token) : List (WaitingQueue D) :=
  toks.filterMap (declaredQueue cv)

/-- The identifier a token names, when it is an `addwaypoint` start record. -/
def addedWaypointId (t : Token) : Option String :=
  if t.type = TokenType.StartElement ∧ t.name = "addwaypoint" then
    some (value t.attributes "id")
  else none

/-- The identifier a token names, when it is an `addqueue` start record. -/
def addedQueueId (t : Token) : Option String :=
  if t.type = TokenType.StartElement ∧ t.name = "addqueue" then
    some (value t.attributes "id")
  else none

/-- The identifiers named by the `addwaypoint` start records of a token
sequence, in order. -/
def addedWaypointIds (toks : List Token) : List String :=
  toks.filterMap addedWaypointId

/-- The identifiers named by the `addqueue` start records of a token sequence,
in order. -/
def addedQueueIds (toks : List Token) : List String :=
  toks.filterMap addedQueueId

/-- The tokens found between an `agent` start record and its end record when
the block holds only `addwaypoint` and `addqueue` records: their start records,
and tokens that are not start records (end records of the inner elements, text,
comments), the `agent` end record and `Invalid` apart. -/
def inBlock (t : Token) : Bool :=
  decide ((t.type = TokenType.StartElement ∧ (t.name = "addwaypoint" ∨ t.name = "addqueue")) ∨
    (t.type ≠ TokenType.StartElement ∧ t.type ≠ TokenType.Invalid ∧
      ¬(t.type = TokenType.EndElement ∧ t.name = "agent")))

/-- A token that is an `agent` start record. -/
def isAgentStart (t : Token) : Bool :=
  decide (t.type = TokenType.StartElement ∧ t.name = "agent")

/-- A token that is an `agent` end record. -/
def isAgentEnd (t : Token) : Bool :=
  decide (t.type = TokenType.EndElement ∧ t.name = "agent")

/-- The reference a token of an agent block hands to the open cluster, given
the waypoints and waiting queues of the registry. -/
def blockRef (ws : List (AreaWaypoint D)) (qs : List (WaitingQueue D)) (t : Token) :
    Option (Ref D) :=
  if t.type = TokenType.StartElement ∧ t.name = "addwaypoint" then
    some (Ref.waypoint (ws.find? (fun w => decide (w.id = value t.attributes "id"))))
  else if t.type = TokenType.StartElement ∧ t.name = "addqueue" then
    some (Ref.queue (qs.find? (fun q => decide (q.id = value t.attributes "id"))))
  else none

/-! ## Concrete scenarios -/

/-- The cluster an `agent` start record with the given attributes creates. -/
def newCluster {D : Type} (cv : Conv D) (attrs : List (String × String)) : AgentCluster D :=
  ⟨cv.toDouble (value attrs "x"), cv.toDouble (value attrs "y"), cv.toInt (value attrs "n"),
    (cv.toDouble (value attrs "dx"), cv.toDouble (value attrs "dy")),
    cv.toInt (value attrs "type"), []⟩

/-- A conversion over the rationals that reads the texts "0", "1", "2", "3" and
"0.5" as those numbers and fails on every other text. -/
def sampleConv : Conv ℚ where
  zero := 0
  parseDouble := fun text =>
    if text = "0" then some 0 else if text = "1" then some 1 else if text = "2" then some 2
    else if text = "3" then some 3 else if text = "0.5" then some (1 / 2) else none
  parseInt := fun text =>
    if text = "0" then some 0 else if text = "1" then some 1 else if text = "2" then some 2
    else if text = "3" then some 3 else none
  fromDegree := fun d => d

/-- The record `<waypoint id="w1" x="1" y="2" r="0.5">`. -/
def waypointW1 : Token :=
  startElement "waypoint" [("id", "w1"), ("x", "1"), ("y", "2"), ("r", "0.5")]

/-- The record `<queue id="q1" x="3" y="1" direction="0">`. -/
def queueQ1 : Token :=
  startElement "queue" [("id", "q1"), ("x", "3"), ("y", "1"), ("direction", "0")]

/-- The attributes `x="0" y="0" n="3" dx="0" dy="0" type="0"` of an agent record. -/
def agentAttrs : List (String × String) :=
  [("x", "0"), ("y", "0"), ("n", "3"), ("dx", "0"), ("dy", "0"), ("type", "0")]

/-- The scenario of the end-to-end example: one waypoint `w1`, then one agent
block that adds `w1`. -/
def sampleStream : List Token :=
  [waypointW1, endElement "waypoint", startElement "agent" agentAttrs,
    startElement "addwaypoint" [("id", "w1")], endElement "addwaypoint", endElement "agent"]

/-- Declarations of one waypoint and one waiting queue. -/
def sampleDecls : List Token :=
  [waypointW1, endElement "waypoint", queueQ1, endElement "queue"]

/-- The inside of an agent block that adds `w1`, then `q1`, then `w1` again. -/
def sampleBlock : List Token :=
  [startElement "addwaypoint" [("id", "w1")], endElement "addwaypoint",
    startElement "addqueue" [("id", "q1")], endElement "addqueue",
    startElement "addwaypoint" [("id", "w1")], endElement "addwaypoint"]

/-- A state with one cluster, which is open, over a registry that holds the
waypoint `w1` and no waiting queue. -/
def openState : State ℚ :=
  ⟨some 0, ⟨[], [], [⟨"w1", 1, 2, 1 / 2⟩], [], [], [newCluster sampleConv agentAttrs]⟩, []⟩

/-- The state `openState` with its cluster closed. -/
def closedState : State ℚ :=
  { openState with currentAgents := none }

/-- A state with one cluster, which is open, over a registry that holds the
waypoint `w1` and the waiting queue `q1`. -/
def queueState : State ℚ :=
  ⟨some 0, ⟨[], [], [⟨"w1", 1, 2, 1 / 2⟩], [⟨"q1", (3, 1), 0⟩], [],
    [newCluster sampleConv agentAttrs]⟩, []⟩

/-- A reader positioned on the given token. -/
def readerAt (t : Token) : XmlStreamReader :=
  ⟨[], t, false⟩

/-! # Theorems -/

/-! ## The branches of `processData` -/

theorem processData_eq_apply (cv : Conv D) (r : XmlStreamReader) (s : State D) :
    processData cv r s = apply cv r.token s := rfl

theorem apply_root (cv : Conv D) (t : Token) (s : State D)
    (ht : t.type = TokenType.StartElement) (hn : t.name = "scenario" ∨ t.name = "welcome") :
    apply cv t s = s := by
  simp [apply, processData, XmlStreamReader.isStartElement, XmlStreamReader.name, ht, hn]

theorem apply_obstacle (cv : Conv D) (t : Token) (s : State D)
    (ht : t.type = TokenType.StartElement) (hn : t.name = "obstacle") :
    apply cv t s = { s with SCENE := ((s.SCENE.addObstacle
      ⟨cv.toDouble (value t.attributes "x1"), cv.toDouble (value t.attributes "y1"),
        cv.toDouble (value t.attributes "x2"), cv.toDouble (value t.attributes "y2")⟩).drawObstacles
      (cv.toDouble (value t.attributes "x1")) (cv.toDouble (value t.attributes "y1"))
      (cv.toDouble (value t.attributes "x2")) (cv.toDouble (value t.attributes "y2"))) } := by
  simp [apply, processData, XmlStreamReader.isStartElement, XmlStreamReader.name,
    XmlStreamReader.attributes, ht, hn]

theorem apply_waypoint (cv : Conv D) (t : Token) (s : State D)
    (ht : t.type = TokenType.StartElement) (hn : t.name = "waypoint") :
    apply cv t s = { s with SCENE := (s.SCENE.addWaypoint
      ⟨value t.attributes "id", cv.toDouble (value t.attributes "x"),
        cv.toDouble (value t.attributes "y"), cv.toDouble (value t.attributes "r")⟩) } := by
  simp [apply, processData, XmlStreamReader.isStartElement, XmlStreamReader.name,
    XmlStreamReader.attributes, ht, hn]

theorem apply_queue (cv : Conv D) (t : Token) (s : State D)
    (ht : t.type = TokenType.StartElement) (hn : t.name = "queue") :
    apply cv t s = { s with SCENE := (s.SCENE.addWaitingQueue
      ⟨value t.attributes "id",
        (cv.toDouble (value t.attributes "x"), cv.toDouble (value t.attributes "y")),
        cv.fromDegree (cv.toDouble (value t.attributes "direction"))⟩) } := by
  simp [apply, processData, XmlStreamReader.isStartElement, XmlStreamReader.name,
    XmlStreamReader.attributes, ht, hn]

theorem apply_attraction (cv : Conv D) (t : Token) (s : State D)
    (ht : t.type = TokenType.StartElement) (hn : t.name = "attraction") :
    apply cv t s = { s with SCENE := (s.SCENE.addAttraction
      ⟨value t.attributes "id",
        (cv.toDouble (value t.attributes "x"), cv.toDouble (value t.attributes "y")),
        (cv.toDouble (value t.attributes "width"), cv.toDouble (value t.attributes "height")),
        cv.toDouble (value t.attributes "strength")⟩) } := by
  simp [apply, processData, XmlStreamReader.isStartElement, XmlStreamReader.name,
    XmlStreamReader.attributes, ht, hn]

theorem apply_agent (cv : Conv D) (t : Token) (s : State D)
    (ht : t.type = TokenType.StartElement) (hn : t.name = "agent") :
    apply cv t s = { s with
      SCENE := (s.SCENE.addAgentCluster
        ⟨cv.toDouble (value t.attributes "x"), cv.toDouble (value t.attributes "y"),
          cv.toInt (value t.attributes "n"),
          (cv.toDouble (value t.attributes "dx"), cv.toDouble (value t.attributes "dy")),
          cv.toInt (value t.attributes "type"), []⟩)
      currentAgents := some s.SCENE.agentClusters.length } := by
  simp [apply, processData, XmlStreamReader.isStartElement, XmlStreamReader.name,
    XmlStreamReader.attributes, ht, hn]

theorem apply_addwaypoint (cv : Conv D) (t : Token) (s : State D)
    (ht : t.type = TokenType.StartElement) (hn : t.name = "addwaypoint") :
    apply cv t s = match s.currentAgents with
      | none => s
      | some p => { s with
          SCENE := (s.SCENE.clusterAddWaypoint p
            (s.SCENE.getWaypointByName (value t.attributes "id")))
          lookups := s.lookups ++ [Lookup.waypoint (value t.attributes "id")] } := by
  simp [apply, processData, XmlStreamReader.isStartElement, XmlStreamReader.name,
    XmlStreamReader.attributes, ht, hn]

theorem apply_addqueue (cv : Conv D) (t : Token) (s : State D)
    (ht : t.type = TokenType.StartElement) (hn : t.name = "addqueue") :
    apply cv t s = match s.currentAgents with
      | none => s
      | some p => { s with
          SCENE := (s.SCENE.clusterAddWaitingQueue p
            (s.SCENE.getWaitingQueueByName (value t.attributes "id")))
          lookups := s.lookups ++ [Lookup.waitingQueue (value t.attributes "id")] } := by
  simp [apply, processData, XmlStreamReader.isStartElement, XmlStreamReader.name,
    XmlStreamReader.attributes, ht, hn]

theorem apply_unknown (cv : Conv D) (t : Token) (s : State D)
    (ht : t.type = TokenType.StartElement)
    (hn : t.name ∉ ["scenario", "welcome", "obstacle", "waypoint", "queue", "attraction",
      "agent", "addwaypoint", "addqueue"]) :
    apply cv t s = s := by
  simp only [List.mem_cons, List.mem_singleton, not_or, List.not_mem_nil, or_false] at hn
  obtain ⟨h1, h2, h3, h4, h5, h6, h7, h8, h9⟩ := hn
  simp [apply, processData, XmlStreamReader.isStartElement, XmlStreamReader.name, ht,
    h1, h2, h3, h4, h5, h6, h7, h8, h9]

theorem apply_agentEnd (cv : Conv D) (t : Token) (s : State D)
    (ht : t.type = TokenType.EndElement) (hn : t.name = "agent") :
    apply cv t s = { s with currentAgents := none } := by
  simp [apply, processData, XmlStreamReader.isStartElement, XmlStreamReader.isEndElement,
    XmlStreamReader.name, ht, hn]

theorem apply_otherEnd (cv : Conv D) (t : Token) (s : State D)
    (ht : t.type = TokenType.EndElement) (hn : t.name ≠ "agent") :
    apply cv t s = s := by
  simp [apply, processData, XmlStreamReader.isStartElement, XmlStreamReader.isEndElement,
    XmlStreamReader.name, ht, hn]

theorem apply_other (cv : Conv D) (t : Token) (s : State D)
    (hs : t.type ≠ TokenType.StartElement) (he : t.type ≠ TokenType.EndElement) :
    apply cv t s = s := by
  simp [apply, processData, XmlStreamReader.isStartElement, XmlStreamReader.isEndElement,
    hs, he]

/-- Every token falls into exactly one branch of `processData`. -/
theorem token_cases (t : Token) :
    (t.type = TokenType.StartElement ∧
      (((t.name = "scenario" ∨ t.name = "welcome") ∨ t.name = "obstacle" ∨ t.name = "waypoint" ∨
        t.name = "queue" ∨ t.name = "attraction") ∨ t.name = "agent" ∨ t.name = "addwaypoint" ∨
        t.name = "addqueue" ∨
        t.name ∉ ["scenario", "welcome", "obstacle", "waypoint", "queue", "attraction",
          "agent", "addwaypoint", "addqueue"])) ∨
    (t.type = TokenType.EndElement ∧ (t.name = "agent" ∨ t.name ≠ "agent")) ∨
    (t.type ≠ TokenType.StartElement ∧ t.type ≠ TokenType.EndElement) := by
  simp only [List.mem_cons, List.mem_singleton, List.not_mem_nil, or_false]
  tauto

/-! ## The reading loop -/

theorem feed_nil (cv : Conv D) (s : State D) : feed cv [] s = s := rfl

theorem feed_cons (cv : Conv D) (t : Token) (ts : List Token) (s : State D) :
    feed cv (t :: ts) s = feed cv ts (apply cv t s) := rfl

theorem feed_append (cv : Conv D) (xs ys : List Token) (s : State D) :
    feed cv (xs ++ ys) s = feed cv ys (feed cv xs s) := by
  simp [feed, List.foldl_append]

theorem consumed_of_valid (toks : List Token) (h : ∀ t ∈ toks, t.type ≠ TokenType.Invalid) :
    consumed toks = toks := by
  induction toks with
  | nil => rfl
  | cons t ts ih =>
    have ht : t.type ≠ TokenType.Invalid := h t (List.mem_cons_self _ _)
    have hts : ∀ u ∈ ts, u.type ≠ TokenType.Invalid := fun u hu => h u (List.mem_cons_of_mem _ hu)
    simp [consumed, ht, ih hts]

theorem consumed_append_of_valid (xs ys : List Token)
    (h : ∀ t ∈ xs, t.type ≠ TokenType.Invalid) :
    consumed (xs ++ ys) = xs ++ consumed ys := by
  induction xs with
  | nil => rfl
  | cons t ts ih =>
    have ht : t.type ≠ TokenType.Invalid := h t (List.mem_cons_self _ _)
    have hts : ∀ u ∈ ts, u.type ≠ TokenType.Invalid := fun u hu => h u (List.mem_cons_of_mem _ hu)
    simp [consumed, ht, ih hts]

theorem consumed_append_of_invalid (xs ys : List Token)
    (h : ∃ t ∈ xs, t.type = TokenType.Invalid) :
    consumed (xs ++ ys) = consumed xs := by
  induction xs with
  | nil => simp at h
  | cons t ts ih =>
    by_cases ht : t.type = TokenType.Invalid
    · simp [consumed, ht]
    · have hts : ∃ u ∈ ts, u.type = TokenType.Invalid := by
        obtain ⟨u, hu, hu'⟩ := h
        rcases List.mem_cons.mp hu with rfl | hmem
        · exact absurd hu' ht
        · exact ⟨u, hmem, hu'⟩
      simp [consumed, ht, ih hts]

theorem readLoop_run (cv : Conv D) (fuel : Nat) (dev : List Token) (tok : Token) (s : State D)
    (hfuel : dev.length ≤ fuel) :
    (readLoop cv fuel ⟨dev, tok, false⟩ s).2 = feed cv (consumed dev) s ∧
    (readLoop cv fuel ⟨dev, tok, false⟩ s).1.hasError
      = dev.any (fun t => decide (t.type = TokenType.Invalid)) ∧
    (readLoop cv fuel ⟨dev, tok, false⟩ s).1.atEnd = true := by
  induction dev generalizing fuel tok s with
  | nil =>
    cases fuel <;> simp [readLoop, XmlStreamReader.atEnd, XmlStreamReader.hasError, consumed, feed]
  | cons t ts ih =>
    cases fuel with
    | zero => simp at hfuel
    | succ fuel =>
      have hlen : ts.length ≤ fuel := by simpa using hfuel
      by_cases ht : t.type = TokenType.Invalid
      · cases fuel <;>
          simp [readLoop, XmlStreamReader.atEnd, XmlStreamReader.hasError,
            XmlStreamReader.readNext, consumed, ht, feed, processData_eq_apply]
      · have h := ih fuel t (apply cv t s) hlen
        have hat : XmlStreamReader.atEnd ⟨t :: ts, tok, false⟩ = false := by
          simp [XmlStreamReader.atEnd]
        have hnext : XmlStreamReader.readNext ⟨t :: ts, tok, false⟩ = ⟨ts, t, false⟩ := by
          simp [XmlStreamReader.readNext, ht]
        have hloop : readLoop cv (fuel + 1) ⟨t :: ts, tok, false⟩ s
            = readLoop cv fuel ⟨ts, t, false⟩ (apply cv t s) := by
          simp [readLoop, hat, hnext, processData_eq_apply]
        rw [hloop]
        refine ⟨?_, ?_, h.2.2⟩
        · rw [h.1]; simp [consumed, ht, feed_cons]
        · rw [h.2.1]; simp [ht]

theorem readFromFile_some (cv : Conv D) (dev : List Token) (s : State D) :
    readFromFile cv (some dev) s =
      (!(dev.any (fun t => decide (t.type = TokenType.Invalid))), feed cv (consumed dev) s) := by
  obtain ⟨h1, h2, _⟩ := readLoop_run cv dev.length dev ⟨TokenType.NoToken, "", []⟩ s le_rfl
  simp only [readFromFile, XmlStreamReader.setDevice, h1, h2]
  cases dev.any (fun t => decide (t.type = TokenType.Invalid)) <;> rfl

theorem readFromFile_valid (cv : Conv D) (dev : List Token) (s : State D)
    (h : ∀ t ∈ dev, t.type ≠ TokenType.Invalid) :
    readFromFile cv (some dev) s = (true, feed cv dev s) := by
  rw [readFromFile_some, consumed_of_valid dev h]
  have : dev.any (fun t => decide (t.type = TokenType.Invalid)) = false := by
    simpa [List.any_eq_false] using h
  simp [this]

/-! ## What a token sequence does to the registry -/

theorem apply_waypoints (cv : Conv D) (t : Token) (s : State D) :
    (apply cv t s).SCENE.waypoints = s.SCENE.waypoints ++ (declaredWaypoint cv t).toList := by
  rcases token_cases t with ⟨ht, hn⟩ | ⟨ht, hn⟩ | ⟨hs, he⟩
  · rcases hn with ((hn | hn | hn | hn | hn) | hn | hn | hn | hn)
    · have : t.name ≠ "waypoint" := by rcases hn with h | h <;> simp [h]
      simp [apply_root cv t s ht hn, declaredWaypoint, this]
    · simp [apply_obstacle cv t s ht hn, declaredWaypoint, hn, Scene.addObstacle,
        Scene.drawObstacles]
    · simp [apply_waypoint cv t s ht hn, declaredWaypoint, hn, ht, Scene.addWaypoint]
    · simp [apply_queue cv t s ht hn, declaredWaypoint, hn, Scene.addWaitingQueue]
    · simp [apply_attraction cv t s ht hn, declaredWaypoint, hn, Scene.addAttraction]
    · simp [apply_agent cv t s ht hn, declaredWaypoint, hn, Scene.addAgentCluster]
    · rw [apply_addwaypoint cv t s ht hn]
      cases s.currentAgents <;> simp [declaredWaypoint, hn, Scene.clusterAddWaypoint]
    · rw [apply_addqueue cv t s ht hn]
      cases s.currentAgents <;> simp [declaredWaypoint, hn, Scene.clusterAddWaitingQueue]
    · have : t.name ≠ "waypoint" := by
        intro h; apply hn; simp [h]
      simp [apply_unknown cv t s ht hn, declaredWaypoint, this]
  · have hs : t.type ≠ TokenType.StartElement := by simp [ht]
    rcases hn with hn | hn
    · simp [apply_agentEnd cv t s ht hn, declaredWaypoint, hs]
    · simp [apply_otherEnd cv t s ht hn, declaredWaypoint, hs]
  · simp [apply_other cv t s hs he, declaredWaypoint, hs]

theorem apply_waitingQueues (cv : Conv D) (t : Token) (s : State D) :
    (apply cv t s).SCENE.waitingQueues = s.SCENE.waitingQueues ++ (declaredQueue cv t).toList := by
  rcases token_cases t with ⟨ht, hn⟩ | ⟨ht, hn⟩ | ⟨hs, he⟩
  · rcases hn with ((hn | hn | hn | hn | hn) | hn | hn | hn | hn)
    · have : t.name ≠ "queue" := by rcases hn with h | h <;> simp [h]
      simp [apply_root cv t s ht hn, declaredQueue, this]
    · simp [apply_obstacle cv t s ht hn, declaredQueue, hn, Scene.addObstacle,
        Scene.drawObstacles]
    · simp [apply_waypoint cv t s ht hn, declaredQueue, hn, Scene.addWaypoint]
    · simp [apply_queue cv t s ht hn, declaredQueue, hn, ht, Scene.addWaitingQueue]
    · simp [apply_attraction cv t s ht hn, declaredQueue, hn, Scene.addAttraction]
    · simp [apply_agent cv t s ht hn, declaredQueue, hn, Scene.addAgentCluster]
    · rw [apply_addwaypoint cv t s ht hn]
      cases s.currentAgents <;> simp [declaredQueue, hn, Scene.clusterAddWaypoint]
    · rw [apply_addqueue cv t s ht hn]
      cases s.currentAgents <;> simp [declaredQueue, hn, Scene.clusterAddWaitingQueue]
    · have : t.name ≠ "queue" := by
        intro h; apply hn; simp [h]
      simp [apply_unknown cv t s ht hn, declaredQueue, this]
  · have hs : t.type ≠ TokenType.StartElement := by simp [ht]
    rcases hn with hn | hn
    · simp [apply_agentEnd cv t s ht hn, declaredQueue, hs]
    · simp [apply_otherEnd cv t s ht hn, declaredQueue, hs]
  · simp [apply_other cv t s hs he, declaredQueue, hs]

theorem feed_waypoints (cv : Conv D) (toks : List Token) (s : State D) :
    (feed cv toks s).SCENE.waypoints = s.SCENE.waypoints ++ declaredWaypoints cv toks := by
  induction toks generalizing s with
  | nil => simp [feed_nil, declaredWaypoints]
  | cons t ts ih =>
    rw [feed_cons, ih, apply_waypoints]
    cases h : declaredWaypoint cv t <;> simp [declaredWaypoints, List.filterMap_cons, h]

theorem feed_waitingQueues (cv : Conv D) (toks : List Token) (s : State D) :
    (feed cv toks s).SCENE.waitingQueues = s.SCENE.waitingQueues ++ declaredQueues cv toks := by
  induction toks generalizing s with
  | nil => simp [feed_nil, declaredQueues]
  | cons t ts ih =>
    rw [feed_cons, ih, apply_waitingQueues]
    cases h : declaredQueue cv t <;> simp [declaredQueues, List.filterMap_cons, h]

/-! ## Agent blocks -/

theorem modify_last {α : Type} (f : α → α) (base : List α) (c : α) :
    (base ++ [c]).modify f base.length = base ++ [f c] := by
  induction base with
  | nil => rfl
  | cons b bs ih => simp [List.modify_succ_cons, ih]

theorem apply_inBlock (cv : Conv D) (t : Token) (s : State D) (base : List (AgentCluster D))
    (c : AgentCluster D) (ht : inBlock t = true)
    (hcur : s.currentAgents = some base.length) (hcl : s.SCENE.agentClusters = base ++ [c]) :
    (apply cv t s).currentAgents = some base.length ∧
    (apply cv t s).SCENE.agentClusters =
      base ++ [{ c with references := (c.references ++
        (blockRef s.SCENE.waypoints s.SCENE.waitingQueues t).toList) }] := by
  simp only [inBlock, decide_eq_true_eq] at ht
  rcases ht with ⟨hst, hn | hn⟩ | ⟨hst, hinv, hend⟩
  · rw [apply_addwaypoint cv t s hst hn, hcur]
    simp [Scene.clusterAddWaypoint, hcl, modify_last, AgentCluster.addWaypoint, blockRef, hst, hn,
      Scene.getWaypointByName]
  · rw [apply_addqueue cv t s hst hn, hcur]
    simp [Scene.clusterAddWaitingQueue, hcl, modify_last, AgentCluster.addWaitingQueue, blockRef,
      hst, hn, Scene.getWaitingQueueByName]
  · by_cases he : t.type = TokenType.EndElement
    · have hn : t.name ≠ "agent" := fun h => hend ⟨he, h⟩
      simp [apply_otherEnd cv t s he hn, hcur, hcl, blockRef, hst]
    · simp [apply_other cv t s hst he, hcur, hcl, blockRef, hst]

theorem declared_none_of_inBlock (cv : Conv D) (t : Token) (ht : inBlock t = true) :
    declaredWaypoint cv t = none ∧ declaredQueue cv t = none := by
  simp only [inBlock, decide_eq_true_eq] at ht
  rcases ht with ⟨_, hn | hn⟩ | ⟨hst, _, _⟩ <;> simp [declaredWaypoint, declaredQueue, *]

theorem feed_inBlock (cv : Conv D) (block : List Token) (s : State D)
    (base : List (AgentCluster D)) (c : AgentCluster D)
    (hb : ∀ t ∈ block, inBlock t = true)
    (hcur : s.currentAgents = some base.length) (hcl : s.SCENE.agentClusters = base ++ [c]) :
    (feed cv block s).currentAgents = some base.length ∧
    (feed cv block s).SCENE.agentClusters =
      base ++ [{ c with references := (c.references ++
        block.filterMap (blockRef s.SCENE.waypoints s.SCENE.waitingQueues)) }] := by
  induction block generalizing s c with
  | nil => simp [feed_nil, hcur, hcl]
  | cons t ts ih =>
    have ht : inBlock t = true := hb t (List.mem_cons_self _ _)
    have hts : ∀ u ∈ ts, inBlock u = true := fun u hu => hb u (List.mem_cons_of_mem _ hu)
    obtain ⟨h1, h2⟩ := apply_inBlock cv t s base c ht hcur hcl
    obtain ⟨hd1, hd2⟩ := declared_none_of_inBlock cv t ht
    have hw : (apply cv t s).SCENE.waypoints = s.SCENE.waypoints := by
      rw [apply_waypoints, hd1]; simp
    have hq : (apply cv t s).SCENE.waitingQueues = s.SCENE.waitingQueues := by
      rw [apply_waitingQueues, hd2]; simp
    obtain ⟨i1, i2⟩ := ih (apply cv t s) _ hts h1 h2
    rw [feed_cons]
    refine ⟨i1, ?_⟩
    rw [i2, hw, hq]
    cases h : blockRef s.SCENE.waypoints s.SCENE.waitingQueues t <;>
      simp [List.filterMap_cons, h]

theorem waypointRefs_block (ws : List (AreaWaypoint D)) (qs : List (WaitingQueue D))
    (block : List Token) (c : AgentCluster D) :
    AgentCluster.waypointRefs
        { c with references := c.references ++ block.filterMap (blockRef ws qs) } =
      c.waypointRefs ++
        (addedWaypointIds block).map (fun id => ws.find? (fun w => decide (w.id = id))) := by
  induction block generalizing c with
  | nil => simp [AgentCluster.waypointRefs, addedWaypointIds]
  | cons t ts ih =>
    by_cases h1 : t.type = TokenType.StartElement ∧ t.name = "addwaypoint"
    · have := ih { c with references := (c.references ++
        [Ref.waypoint (ws.find? (fun w => decide (w.id = value t.attributes "id")))]) }
      simp only [List.append_assoc] at this
      simp [List.filterMap_cons, blockRef, h1, addedWaypointIds, addedWaypointId, this,
        AgentCluster.waypointRefs]
      simpa [addedWaypointIds, AgentCluster.waypointRefs] using this
    · by_cases h2 : t.type = TokenType.StartElement ∧ t.name = "addqueue"
      · have := ih { c with references := (c.references ++
          [Ref.queue (qs.find? (fun q => decide (q.id = value t.attributes "id")))]) }
        simp only [List.append_assoc] at this
        simp [List.filterMap_cons, blockRef, h1, h2, addedWaypointIds, addedWaypointId,
          AgentCluster.waypointRefs]
        simpa [addedWaypointIds, AgentCluster.waypointRefs] using this
      · have := ih c
        simpa [List.filterMap_cons, blockRef, h1, h2, addedWaypointIds, addedWaypointId] using this

theorem queueRefs_block (ws : List (AreaWaypoint D)) (qs : List (WaitingQueue D))
    (block : List Token) (c : AgentCluster D) :
    AgentCluster.queueRefs
        { c with references := (c.references ++ block.filterMap (blockRef ws qs)) } =
      c.queueRefs ++
        (addedQueueIds block).map (fun id => qs.find? (fun q => decide (q.id = id))) := by
  induction block generalizing c with
  | nil => simp [AgentCluster.queueRefs, addedQueueIds]
  | cons t ts ih =>
    by_cases h1 : t.type = TokenType.StartElement ∧ t.name = "addwaypoint"
    · have h2 : ¬(t.type = TokenType.StartElement ∧ t.name = "addqueue") := by
        rintro ⟨_, h⟩; simp [h] at h1
      have := ih { c with references := (c.references ++
        [Ref.waypoint (ws.find? (fun w => decide (w.id = value t.attributes "id")))]) }
      simp only [List.append_assoc] at this
      simp [List.filterMap_cons, blockRef, h1, addedQueueIds, addedQueueId,
        AgentCluster.queueRefs]
      simpa [addedQueueIds, AgentCluster.queueRefs] using this
    · by_cases h2 : t.type = TokenType.StartElement ∧ t.name = "addqueue"
      · have := ih { c with references := (c.references ++
          [Ref.queue (qs.find? (fun q => decide (q.id = value t.attributes "id")))]) }
        simp only [List.append_assoc] at this
        simp [List.filterMap_cons, blockRef, h1, h2, addedQueueIds, addedQueueId,
          AgentCluster.queueRefs]
        simpa [addedQueueIds, AgentCluster.queueRefs] using this
      · have := ih c
        simpa [List.filterMap_cons, blockRef, h1, h2, addedQueueIds, addedQueueId] using this

/-- In a list whose keys are pairwise distinct, looking a key up finds the
element carrying it. -/
theorem find_of_mem_nodup {α : Type} (key : α → String) (l : List α) (a : α)
    (hnd : (l.map key).Nodup) (ha : a ∈ l) :
    l.find? (fun x => decide (key x = key a)) = some a := by
  induction l with
  | nil => simp at ha
  | cons b bs ih =>
    simp only [List.map_cons, List.nodup_cons] at hnd
    by_cases hb : key b = key a
    · rcases List.mem_cons.mp ha with rfl | hmem
      · simp
      · exact absurd (hb ▸ List.mem_map_of_mem key hmem) hnd.1
    · rcases List.mem_cons.mp ha with rfl | hmem
      · exact absurd rfl hb
      · simp [List.find?_cons, hb, ih hnd.2 hmem]

/-- Looking up identifiers that all belong to the elements `decl` at the end of
a list with pairwise distinct identifiers yields exactly those elements. -/
theorem resolve_all {α : Type} (key : α → String) (old decl : List α) (ids : List String)
    (hnd : ((old ++ decl).map key).Nodup) (hids : ∀ id ∈ ids, id ∈ decl.map key) :
    ∃ xs : List α,
      ids.map (fun id => (old ++ decl).find? (fun x => decide (key x = id))) = xs.map some ∧
      xs.map key = ids ∧ ∀ x ∈ xs, x ∈ decl := by
  induction ids with
  | nil => exact ⟨[], rfl, rfl, by simp⟩
  | cons id ids ih =>
    obtain ⟨xs, h1, h2, h3⟩ := ih (fun i hi => hids i (List.mem_cons_of_mem _ hi))
    obtain ⟨a, ha, rfl⟩ := List.mem_map.mp (hids id (List.mem_cons_self _ _))
    have hfind := find_of_mem_nodup key (old ++ decl) a hnd (List.mem_append_right _ ha)
    refine ⟨a :: xs, ?_, ?_, ?_⟩
    · simp only [List.map_cons, hfind, h1]
    · simp [h2]
    · intro x hx
      rcases List.mem_cons.mp hx with rfl | hx
      · exact ha
      · exact h3 x hx

theorem inBlock_valid (t : Token) (h : inBlock t = true) : t.type ≠ TokenType.Invalid := by
  simp only [inBlock, decide_eq_true_eq] at h
  rcases h with ⟨hst, _⟩ | ⟨_, hinv, _⟩
  · simp [hst]
  · exact hinv

/-- Claim C1.  Waypoints and waiting queues declared with pairwise distinct
identifiers, followed later by an agent block whose `addwaypoint` and `addqueue`
records each name one of them: the cluster created by the `agent` record ends up
with exactly the named waypoints as its waypoint references and exactly the
named waiting queues as its queue references, each in the order of the records
(every reference resolved, none missing, none extra), and the block is closed
afterwards. -/
theorem cluster_references_exact (cv : Conv D) (s : State D) (pre block : List Token)
    (attrs : List (String × String))
    (hpre : ∀ t ∈ pre, t.type ≠ TokenType.Invalid)
    (hblock : ∀ t ∈ block, inBlock t = true)
    (hw : ((s.SCENE.waypoints ++ declaredWaypoints cv pre).map (fun w => w.id)).Nodup)
    (hq : ((s.SCENE.waitingQueues ++ declaredQueues cv pre).map (fun q => q.id)).Nodup)
    (hnw : ∀ id ∈ addedWaypointIds block, id ∈ (declaredWaypoints cv pre).map (fun w => w.id))
    (hnq : ∀ id ∈ addedQueueIds block, id ∈ (declaredQueues cv pre).map (fun q => q.id)) :
    ∃ (c : AgentCluster D) (ws : List (AreaWaypoint D)) (qs : List (WaitingQueue D)),
      (readFromFile cv
        (some (pre ++ startElement "agent" attrs :: block ++ [endElement "agent"])) s).1 = true ∧
      (readFromFile cv
        (some (pre ++ startElement "agent" attrs :: block ++ [endElement "agent"])) s).2.currentAgents
          = none ∧
      (readFromFile cv
        (some (pre ++ startElement "agent" attrs :: block ++ [endElement "agent"])) s).2.SCENE.agentClusters
          = (readFromFile cv (some pre) s).2.SCENE.agentClusters ++ [c] ∧
      c.count = cv.toInt (value attrs "n") ∧
      c.waypointRefs = ws.map some ∧ ws.map (fun w => w.id) = addedWaypointIds block ∧
      (∀ w ∈ ws, w ∈ declaredWaypoints cv pre) ∧
      c.queueRefs = qs.map some ∧ qs.map (fun q => q.id) = addedQueueIds block ∧
      (∀ q ∈ qs, q ∈ declaredQueues cv pre) := by
  have hall : ∀ t ∈ pre ++ startElement "agent" attrs :: block ++ [endElement "agent"],
      t.type ≠ TokenType.Invalid := by
    intro t ht
    simp only [List.mem_append, List.mem_cons, List.mem_singleton, List.not_mem_nil,
      or_false] at ht
    rcases ht with (h | rfl | h) | rfl
    · exact hpre t h
    · simp [startElement]
    · exact inBlock_valid t (hblock t h)
    · simp [endElement]
  rw [readFromFile_valid cv _ s hall, readFromFile_valid cv pre s hpre]
  have hsplit : pre ++ startElement "agent" attrs :: block ++ [endElement "agent"]
      = pre ++ ([startElement "agent" attrs] ++ (block ++ [endElement "agent"])) := by simp
  rw [hsplit, feed_append, feed_append, feed_append]
  set s1 := feed cv pre s with hs1
  have hW : s1.SCENE.waypoints = s.SCENE.waypoints ++ declaredWaypoints cv pre :=
    feed_waypoints cv pre s
  have hQ : s1.SCENE.waitingQueues = s.SCENE.waitingQueues ++ declaredQueues cv pre :=
    feed_waitingQueues cv pre s
  have hagent := apply_agent cv (startElement "agent" attrs) s1 rfl rfl
  set s2 := feed cv [startElement "agent" attrs] s1 with hs2
  have hs2' : s2 = apply cv (startElement "agent" attrs) s1 := rfl
  rw [hagent] at hs2'
  have hcur2 : s2.currentAgents = some s1.SCENE.agentClusters.length := by rw [hs2']
  let c0 : AgentCluster D := ⟨cv.toDouble (value attrs "x"), cv.toDouble (value attrs "y"),
    cv.toInt (value attrs "n"),
    (cv.toDouble (value attrs "dx"), cv.toDouble (value attrs "dy")),
    cv.toInt (value attrs "type"), []⟩
  have hcl2 : s2.SCENE.agentClusters = s1.SCENE.agentClusters ++ [c0] := by
    rw [hs2']; rfl
  have hW2 : s2.SCENE.waypoints = s1.SCENE.waypoints := by rw [hs2']; rfl
  have hQ2 : s2.SCENE.waitingQueues = s1.SCENE.waitingQueues := by rw [hs2']; rfl
  obtain ⟨-, hb2⟩ := feed_inBlock cv block s2 _ c0 hblock hcur2 hcl2
  obtain ⟨ws, hws1, hws2, hws3⟩ := resolve_all (fun w : AreaWaypoint D => w.id)
    s.SCENE.waypoints (declaredWaypoints cv pre) (addedWaypointIds block) hw hnw
  obtain ⟨qs, hqs1, hqs2, hqs3⟩ := resolve_all (fun q : WaitingQueue D => q.id)
    s.SCENE.waitingQueues (declaredQueues cv pre) (addedQueueIds block) hq hnq
  refine ⟨{ c0 with references := (c0.references ++
      block.filterMap (blockRef s2.SCENE.waypoints s2.SCENE.waitingQueues)) },
    ws, qs, rfl, ?_, ?_, rfl, ?_, hws2, hws3, ?_, hqs2, hqs3⟩
  · rw [feed_cons, feed_nil, apply_agentEnd cv _ _ rfl rfl]
  · rw [feed_cons, feed_nil, apply_agentEnd cv _ _ rfl rfl]
    exact hb2
  · rw [waypointRefs_block, hW2, hW, hws1]
    simp [AgentCluster.waypointRefs, c0]
  · rw [queueRefs_block, hQ2, hQ, hqs1]
    simp [AgentCluster.queueRefs, c0]

/-! ## Records without effect -/

/-- A valid token that leaves the state reached before it unchanged can be
dropped from the stream. -/
theorem readFromFile_skip (cv : Conv D) (t : Token) (pre post : List Token) (s0 : State D)
    (ht : t.type ≠ TokenType.Invalid)
    (h : (∀ u ∈ pre, u.type ≠ TokenType.Invalid) →
      apply cv t (feed cv pre s0) = feed cv pre s0) :
    readFromFile cv (some (pre ++ t :: post)) s0 = readFromFile cv (some (pre ++ post)) s0 := by
  rw [readFromFile_some, readFromFile_some]
  by_cases hv : ∀ u ∈ pre, u.type ≠ TokenType.Invalid
  · rw [consumed_append_of_valid pre _ hv, consumed_append_of_valid pre _ hv, feed_append,
      feed_append]
    have hc : consumed (t :: post) = t :: consumed post := by simp [consumed, ht]
    rw [hc, feed_cons, h hv]
    simp [List.any_append, ht]
  · have hv' : ∃ u ∈ pre, u.type = TokenType.Invalid := by
      by_contra hne
      exact hv (fun u hu hinv => hne ⟨u, hu, hinv⟩)
    rw [consumed_append_of_invalid pre _ hv', consumed_append_of_invalid pre _ hv']
    have hany : pre.any (fun t => decide (t.type = TokenType.Invalid)) = true := by
      obtain ⟨u, hu, hinv⟩ := hv'
      exact List.any_eq_true.mpr ⟨u, hu, by simp [hinv]⟩
    simp [List.any_append, hany]

/-- Claim C3.  With no cluster open, an `addwaypoint` or `addqueue` start record,
whatever its attributes, leaves the whole state as it was: the registry with all
its clusters, the empty open-cluster slot, and the record of lookups (none is
performed); and the record does not change what `readFromFile` returns or
leaves behind for any stream it stands in at a point where no cluster is
open. -/
theorem add_record_outside_block (cv : Conv D) (xmlReader : XmlStreamReader) (s : State D)
    (hcur : s.currentAgents = none) (hstart : xmlReader.isStartElement = true)
    (hname : xmlReader.name = "addwaypoint" ∨ xmlReader.name = "addqueue") :
    processData cv xmlReader s = s ∧
    (processData cv xmlReader s).SCENE = s.SCENE ∧
    (processData cv xmlReader s).currentAgents = none ∧
    (processData cv xmlReader s).lookups = s.lookups ∧
    ∀ (pre post : List Token) (s0 : State D),
      (readFromFile cv (some pre) s0).2.currentAgents = none →
      readFromFile cv (some (pre ++ xmlReader.token :: post)) s0
        = readFromFile cv (some (pre ++ post)) s0 := by
  have ht : xmlReader.token.type = TokenType.StartElement := by
    simpa [XmlStreamReader.isStartElement] using hstart
  have hnoop : ∀ s' : State D, s'.currentAgents = none → apply cv xmlReader.token s' = s' := by
    intro s' hs'
    rcases hname with hn | hn
    · rw [apply_addwaypoint cv _ s' ht hn, hs']
    · rw [apply_addqueue cv _ s' ht hn, hs']
  have hp : processData cv xmlReader s = s := by
    rw [processData_eq_apply]; exact hnoop s hcur
  refine ⟨hp, by rw [hp], by rw [hp, hcur], by rw [hp], ?_⟩
  intro pre post s0 hopen
  apply readFromFile_skip cv _ pre post s0 (by simp [ht])
  intro hv
  rw [readFromFile_valid cv pre s0 hv] at hopen
  exact hnoop _ hopen

/-- Claim C8.  A start record whose tag is not one of obstacle, waypoint, queue,
attraction, agent, addwaypoint, addqueue (an unknown tag, or scenario or
welcome) leaves the whole state as it was, and the stream is read exactly as if
the record were absent: same returned flag, same state left behind. -/
theorem unknown_record_ignored (cv : Conv D) (xmlReader : XmlStreamReader) (s : State D)
    (hstart : xmlReader.isStartElement = true)
    (hname : xmlReader.name ∉
      ["obstacle", "waypoint", "queue", "attraction", "agent", "addwaypoint", "addqueue"]) :
    processData cv xmlReader s = s ∧
    (processData cv xmlReader s).SCENE = s.SCENE ∧
    (processData cv xmlReader s).currentAgents = s.currentAgents ∧
    ∀ (pre post : List Token) (s0 : State D),
      readFromFile cv (some (pre ++ xmlReader.token :: post)) s0
        = readFromFile cv (some (pre ++ post)) s0 := by
  have ht : xmlReader.token.type = TokenType.StartElement := by
    simpa [XmlStreamReader.isStartElement] using hstart
  have hnoop : ∀ s' : State D, apply cv xmlReader.token s' = s' := by
    intro s'
    by_cases hr : xmlReader.token.name = "scenario" ∨ xmlReader.token.name = "welcome"
    · exact apply_root cv _ s' ht hr
    · apply apply_unknown cv _ s' ht
      simp only [XmlStreamReader.name, List.mem_cons, List.mem_singleton, List.not_mem_nil,
        or_false, not_or] at hname hr ⊢
      tauto
  have hp : processData cv xmlReader s = s := by
    rw [processData_eq_apply]; exact hnoop s
  refine ⟨hp, by rw [hp], by rw [hp], ?_⟩
  intro pre post s0
  exact readFromFile_skip cv _ pre post s0 (by simp [ht]) (fun _ => hnoop _)

/-! ## The returned flag -/

/-- Claim C6.  The flag returned by `readFromFile` is false exactly when the file
cannot be opened or the reader reports an error once the loop has stopped (and
the loop does stop with the reader at its end, the error being reported exactly
when the stream holds an invalid token); so every stream without a stream-level
error gives true whatever its records are, and a file that cannot be opened
leaves the state untouched. -/
theorem readFromFile_flag (cv : Conv D) (file : Option (List Token)) (s : State D) :
    ((readFromFile cv file s).1 = false ↔
      file = none ∨ ∃ dev, file = some dev ∧
        (readLoop cv dev.length (XmlStreamReader.setDevice dev) s).1.hasError = true) ∧
    (∀ dev, file = some dev →
      (readLoop cv dev.length (XmlStreamReader.setDevice dev) s).1.atEnd = true ∧
      ((readLoop cv dev.length (XmlStreamReader.setDevice dev) s).1.hasError = true ↔
        ∃ t ∈ dev, t.type = TokenType.Invalid)) ∧
    (∀ dev, file = some dev → (∀ t ∈ dev, t.type ≠ TokenType.Invalid) →
      (readFromFile cv file s).1 = true) ∧
    (file = none → readFromFile cv file s = (false, s)) := by
  cases file with
  | none => simp [readFromFile]
  | some dev =>
    obtain ⟨-, h2, h3⟩ := readLoop_run cv dev.length dev ⟨TokenType.NoToken, "", []⟩ s le_rfl
    have h2' : (readLoop cv dev.length (XmlStreamReader.setDevice dev) s).1.hasError
        = dev.any (fun t => decide (t.type = TokenType.Invalid)) := h2
    have h3' : (readLoop cv dev.length (XmlStreamReader.setDevice dev) s).1.atEnd = true := h3
    refine ⟨?_, ?_, ?_, by simp⟩
    · rw [readFromFile_some]
      simp [h2']
    · intro dev' hdev
      cases hdev
      refine ⟨h3', ?_⟩
      rw [h2']
      simp [List.any_eq_true]
    · intro dev' hdev hv
      cases hdev
      rw [readFromFile_valid cv dev s hv]

/-! ## Obstacles -/

/-- Claim C7.  An obstacle start record inserts exactly one obstacle, whatever
its attributes hold: each coordinate is the value its text parses to, and the
zero of the conversion when the text does not parse (a missing attribute reads
as the empty text); nothing else in the registry but the occupancy
representation changes, the open-cluster slot stays, and a stream without a
stream-level error that contains the record still makes `readFromFile` return
true. -/
theorem obstacle_record_lenient (cv : Conv D) (xmlReader : XmlStreamReader) (s : State D)
    (hstart : xmlReader.isStartElement = true) (hname : xmlReader.name = "obstacle") :
    (processData cv xmlReader s).SCENE.obstacles = s.SCENE.obstacles ++
      [⟨(cv.parseDouble (value xmlReader.attributes "x1")).getD cv.zero,
        (cv.parseDouble (value xmlReader.attributes "y1")).getD cv.zero,
        (cv.parseDouble (value xmlReader.attributes "x2")).getD cv.zero,
        (cv.parseDouble (value xmlReader.attributes "y2")).getD cv.zero⟩] ∧
    (processData cv xmlReader s).SCENE.waypoints = s.SCENE.waypoints ∧
    (processData cv xmlReader s).SCENE.waitingQueues = s.SCENE.waitingQueues ∧
    (processData cv xmlReader s).SCENE.attractions = s.SCENE.attractions ∧
    (processData cv xmlReader s).SCENE.agentClusters = s.SCENE.agentClusters ∧
    (processData cv xmlReader s).currentAgents = s.currentAgents ∧
    ∀ (pre post : List Token) (s0 : State D),
      (∀ t ∈ pre ++ post, t.type ≠ TokenType.Invalid) →
      (readFromFile cv (some (pre ++ xmlReader.token :: post)) s0).1 = true := by
  have ht : xmlReader.token.type = TokenType.StartElement := by
    simpa [XmlStreamReader.isStartElement] using hstart
  have hd : ∀ text, cv.toDouble text = (cv.parseDouble text).getD cv.zero := by
    intro text
    unfold Conv.toDouble
    cases cv.parseDouble text <;> rfl
  rw [processData_eq_apply, apply_obstacle cv _ s ht hname]
  refine ⟨by simp [Scene.addObstacle, Scene.drawObstacles, hd, XmlStreamReader.attributes],
    rfl, rfl, rfl, rfl, rfl, ?_⟩
  intro pre post s0 hv
  rw [readFromFile_valid]
  intro t htm
  simp only [List.mem_append, List.mem_cons] at htm hv
  rcases htm with h | rfl | h
  · exact hv t (Or.inl h)
  · simp [ht]
  · exact hv t (Or.inr h)

/-! ## The open-cluster slot -/

theorem isAgentStart_false (t : Token) (h : isAgentStart t = false) :
    ¬(t.type = TokenType.StartElement ∧ t.name = "agent") := by
  simpa [isAgentStart] using h

theorem isAgentEnd_false (t : Token) (h : isAgentEnd t = false) :
    ¬(t.type = TokenType.EndElement ∧ t.name = "agent") := by
  simpa [isAgentEnd] using h

/-- Only `agent` records write the open-cluster slot. -/
theorem apply_currentAgents (cv : Conv D) (t : Token) (s : State D)
    (hs : isAgentStart t = false) (he : isAgentEnd t = false) :
    (apply cv t s).currentAgents = s.currentAgents := by
  have hs' := isAgentStart_false t hs
  have he' := isAgentEnd_false t he
  rcases token_cases t with ⟨ht, hn⟩ | ⟨ht, hn⟩ | ⟨hst, hen⟩
  · rcases hn with ((hn | hn | hn | hn | hn) | hn | hn | hn | hn)
    · rw [apply_root cv t s ht hn]
    · rw [apply_obstacle cv t s ht hn]
    · rw [apply_waypoint cv t s ht hn]
    · rw [apply_queue cv t s ht hn]
    · rw [apply_attraction cv t s ht hn]
    · exact absurd ⟨ht, hn⟩ hs'
    · rw [apply_addwaypoint cv t s ht hn]
      cases h : s.currentAgents <;> simp [h]
    · rw [apply_addqueue cv t s ht hn]
      cases h : s.currentAgents <;> simp [h]
    · rw [apply_unknown cv t s ht hn]
  · rcases hn with hn | hn
    · exact absurd ⟨ht, hn⟩ he'
    · rw [apply_otherEnd cv t s ht hn]
  · rw [apply_other cv t s hst hen]

theorem feed_currentAgents (cv : Conv D) (toks : List Token) (s : State D)
    (h : ∀ t ∈ toks, isAgentStart t = false ∧ isAgentEnd t = false) :
    (feed cv toks s).currentAgents = s.currentAgents := by
  induction toks generalizing s with
  | nil => rfl
  | cons t ts ih =>
    obtain ⟨h1, h2⟩ := h t (List.mem_cons_self _ _)
    rw [feed_cons, ih _ (fun u hu => h u (List.mem_cons_of_mem _ hu)),
      apply_currentAgents cv t s h1 h2]

/-- Claim C10.  A token that is neither an `agent` start record nor an `agent`
end record leaves the open-cluster slot as it was.  So records of any other
kind inside an agent block do not close it, and an `addwaypoint` or `addqueue`
record after them still reaches the open cluster: the cluster in the slot, and
no other, receives the reference that the lookup returns. -/
theorem slot_written_only_by_agent_records (cv : Conv D) (xmlReader : XmlStreamReader)
    (s : State D)
    (h : isAgentStart xmlReader.token = false ∧ isAgentEnd xmlReader.token = false) :
    (processData cv xmlReader s).currentAgents = s.currentAgents ∧
    ∀ (inner : List Token) (addAttrs : List (String × String)) (p : Nat),
      (∀ t ∈ inner, t.type ≠ TokenType.Invalid ∧ isAgentStart t = false ∧ isAgentEnd t = false) →
      s.currentAgents = some p →
      (readFromFile cv (some inner) s).2.currentAgents = some p ∧
      (readFromFile cv (some (inner ++ [startElement "addwaypoint" addAttrs])) s).2.SCENE.agentClusters
        = (readFromFile cv (some inner) s).2.SCENE.agentClusters.modify
            (fun c => c.addWaypoint
              ((readFromFile cv (some inner) s).2.SCENE.getWaypointByName (value addAttrs "id"))) p ∧
      (readFromFile cv (some (inner ++ [startElement "addqueue" addAttrs])) s).2.SCENE.agentClusters
        = (readFromFile cv (some inner) s).2.SCENE.agentClusters.modify
            (fun c => c.addWaitingQueue
              ((readFromFile cv (some inner) s).2.SCENE.getWaitingQueueByName
                (value addAttrs "id"))) p := by
  refine ⟨?_, ?_⟩
  · rw [processData_eq_apply]
    exact apply_currentAgents cv _ s h.1 h.2
  · intro inner addAttrs p hin hcur
    have hv : ∀ t ∈ inner, t.type ≠ TokenType.Invalid := fun t ht => (hin t ht).1
    have hvadd : ∀ name, ∀ t ∈ inner ++ [startElement name addAttrs],
        t.type ≠ TokenType.Invalid := by
      intro name t ht
      rcases List.mem_append.mp ht with h | h
      · exact hv t h
      · rcases List.mem_singleton.mp h with rfl
        simp [startElement]
    have hslot : (feed cv inner s).currentAgents = some p := by
      rw [feed_currentAgents cv inner s (fun t ht => (hin t ht).2), hcur]
    rw [readFromFile_valid cv _ s hv, readFromFile_valid cv _ s (hvadd "addwaypoint"),
      readFromFile_valid cv _ s (hvadd "addqueue")]
    simp only [feed_append, feed_cons, feed_nil]
    refine ⟨hslot, ?_, ?_⟩
    · rw [apply_addwaypoint cv _ _ rfl rfl, hslot]
      rfl
    · rw [apply_addqueue cv _ _ rfl rfl, hslot]
      rfl

/-- Claim C9, amended.  The open-cluster context is one slot and an `agent` start
record always overwrites it.  In any state, whichever cluster A is open, the
record inserts its own cluster B after all others and makes B the open cluster;
a resolvable `addwaypoint` or `addqueue` read next is attached to B, every
earlier cluster, A included, stays as it was, and B stays open.  So after agent
A, agent B two clusters were inserted and B is open; and in the sequence agent
A, agent B, agent end, addwaypoint or addqueue, agent end the reference is
attached to neither A nor B and no lookup is made, because the first end record
already emptied the slot. -/
theorem nested_agent_overwrites_slot (cv : Conv D) (s : State D)
    (attrsA attrsB addAttrs : List (String × String)) :
    readFromFile cv (some [startElement "agent" attrsB]) s
      = (true, ⟨some s.SCENE.agentClusters.length,
          { s.SCENE with agentClusters := (s.SCENE.agentClusters ++ [newCluster cv attrsB]) },
          s.lookups⟩) ∧
    (∀ w, s.SCENE.getWaypointByName (value addAttrs "id") = some w →
      readFromFile cv
          (some [startElement "agent" attrsB, startElement "addwaypoint" addAttrs]) s
        = (true, ⟨some s.SCENE.agentClusters.length,
            { s.SCENE with agentClusters :=
                (s.SCENE.agentClusters ++ [(newCluster cv attrsB).addWaypoint (some w)]) },
            s.lookups ++ [Lookup.waypoint (value addAttrs "id")]⟩)) ∧
    (∀ q, s.SCENE.getWaitingQueueByName (value addAttrs "id") = some q →
      readFromFile cv
          (some [startElement "agent" attrsB, startElement "addqueue" addAttrs]) s
        = (true, ⟨some s.SCENE.agentClusters.length,
            { s.SCENE with agentClusters :=
                (s.SCENE.agentClusters ++ [(newCluster cv attrsB).addWaitingQueue (some q)]) },
            s.lookups ++ [Lookup.waitingQueue (value addAttrs "id")]⟩)) ∧
    readFromFile cv (some [startElement "agent" attrsA, startElement "agent" attrsB]) s
      = (true, ⟨some (s.SCENE.agentClusters.length + 1),
          { s.SCENE with agentClusters :=
              (s.SCENE.agentClusters ++ [newCluster cv attrsA, newCluster cv attrsB]) },
          s.lookups⟩) ∧
    readFromFile cv (some [startElement "agent" attrsA, startElement "agent" attrsB,
        endElement "agent", startElement "addwaypoint" addAttrs, endElement "agent"]) s
      = (true, ⟨none,
          { s.SCENE with agentClusters :=
              (s.SCENE.agentClusters ++ [newCluster cv attrsA, newCluster cv attrsB]) },
          s.lookups⟩) ∧
    readFromFile cv (some [startElement "agent" attrsA, startElement "agent" attrsB,
        endElement "agent", startElement "addqueue" addAttrs, endElement "agent"]) s
      = (true, ⟨none,
          { s.SCENE with agentClusters :=
              (s.SCENE.agentClusters ++ [newCluster cv attrsA, newCluster cv attrsB]) },
          s.lookups⟩) := by
  have hA : ∀ s' : State D, apply cv (startElement "agent" attrsA) s' =
      ⟨some s'.SCENE.agentClusters.length, s'.SCENE.addAgentCluster (newCluster cv attrsA),
        s'.lookups⟩ := fun s' => apply_agent cv _ s' rfl rfl
  have hB : ∀ s' : State D, apply cv (startElement "agent" attrsB) s' =
      ⟨some s'.SCENE.agentClusters.length, s'.SCENE.addAgentCluster (newCluster cv attrsB),
        s'.lookups⟩ := fun s' => apply_agent cv _ s' rfl rfl
  refine ⟨?_, ?_, ?_, ?_, ?_, ?_⟩
  · rw [readFromFile_valid cv _ s (by simp [startElement])]
    simp [feed_cons, feed_nil, hB, Scene.addAgentCluster]
  · intro w hw
    rw [readFromFile_valid cv _ s (by simp [startElement])]
    simp only [feed_cons, feed_nil, hB]
    rw [apply_addwaypoint cv _ _ rfl rfl]
    have hw' : (s.SCENE.addAgentCluster (newCluster cv attrsB)).getWaypointByName
        (value addAttrs "id") = some w := hw
    simp only [startElement, hw']
    simp [Scene.addAgentCluster, Scene.clusterAddWaypoint, modify_last]
  · intro q hq
    rw [readFromFile_valid cv _ s (by simp [startElement])]
    simp only [feed_cons, feed_nil, hB]
    rw [apply_addqueue cv _ _ rfl rfl]
    have hq' : (s.SCENE.addAgentCluster (newCluster cv attrsB)).getWaitingQueueByName
        (value addAttrs "id") = some q := hq
    simp only [startElement, hq']
    simp [Scene.addAgentCluster, Scene.clusterAddWaitingQueue, modify_last]
  · rw [readFromFile_valid cv _ s (by simp [startElement])]
    simp [feed_cons, feed_nil, hA, hB, Scene.addAgentCluster]
  · rw [readFromFile_valid cv _ s (by simp [startElement, endElement])]
    simp only [feed_cons, feed_nil, hA, hB]
    rw [apply_agentEnd cv _ _ rfl rfl, apply_addwaypoint cv _ _ rfl rfl,
      apply_agentEnd cv _ _ rfl rfl]
    simp [Scene.addAgentCluster]
  · rw [readFromFile_valid cv _ s (by simp [startElement, endElement])]
    simp only [feed_cons, feed_nil, hA, hB]
    rw [apply_agentEnd cv _ _ rfl rfl, apply_addqueue cv _ _ rfl rfl,
      apply_agentEnd cv _ _ rfl rfl]
    simp [Scene.addAgentCluster]

/-- Claim C9 as stated, refuted.  Read from the empty registry, a second
`agent` start record is not rejected: after it the registry holds one cluster
more than before it, and the open cluster is no longer the first one. -/
theorem nested_agent_not_rejected :
    ¬((readFromFile sampleConv
          (some [startElement "agent" agentAttrs, startElement "agent" agentAttrs])
          (State.init Scene.empty)).2.SCENE.agentClusters
        = (readFromFile sampleConv (some [startElement "agent" agentAttrs])
          (State.init Scene.empty)).2.SCENE.agentClusters ∧
      (readFromFile sampleConv
          (some [startElement "agent" agentAttrs, startElement "agent" agentAttrs])
          (State.init Scene.empty)).2.currentAgents
        = (readFromFile sampleConv (some [startElement "agent" agentAttrs])
          (State.init Scene.empty)).2.currentAgents) := by
  decide

/-- Claim C4 at the failing input.  With a cluster open and nothing called
`nope` in the registry, an `addwaypoint` (or `addqueue`) record naming `nope`
is not skipped: the null pointer returned by the lookup is handed to the open
cluster, whose reference list grows by a null entry. -/
theorem unresolved_reference_not_skipped :
    openState.SCENE.getWaypointByName "nope" = none ∧
    openState.SCENE.getWaitingQueueByName "nope" = none ∧
    (processData sampleConv (readerAt (startElement "addwaypoint" [("id", "nope")]))
        openState).SCENE.agentClusters
      = [(newCluster sampleConv agentAttrs).addWaypoint none] ∧
    ((newCluster sampleConv agentAttrs).addWaypoint none).references = [Ref.waypoint none] ∧
    (processData sampleConv (readerAt (startElement "addqueue" [("id", "nope")]))
        openState).SCENE.agentClusters
      = [(newCluster sampleConv agentAttrs).addWaitingQueue none] ∧
    ((newCluster sampleConv agentAttrs).addWaitingQueue none).references = [Ref.queue none] := by
  decide

/-- Claim C2.  Under a conversion that reads "1", "2", "0.5" and "3" as those
numbers, reading the example scenario from the empty registry with no cluster
open succeeds and leaves a registry with the waypoint `w1` at (1,2) with radius
0.5 and exactly one cluster, of count 3, whose reference list is the single
reference to that waypoint; no cluster is open afterwards. -/
theorem end_to_end_example (cv : Conv ℚ)
    (h1 : cv.parseDouble "1" = some 1) (h2 : cv.parseDouble "2" = some 2)
    (hr : cv.parseDouble "0.5" = some (1 / 2)) (hn : cv.parseInt "3" = some 3) :
    ∃ c : AgentCluster ℚ,
      readFromFile cv (some sampleStream) (State.init Scene.empty)
        = (true, ⟨none, ⟨[], [], [⟨"w1", 1, 2, 1 / 2⟩], [], [], [c]⟩, [Lookup.waypoint "w1"]⟩) ∧
      c.count = 3 ∧ c.references = [Ref.waypoint (some ⟨"w1", 1, 2, 1 / 2⟩)] ∧
      c.waypointRefs = [some ⟨"w1", 1, 2, 1 / 2⟩] ∧ c.queueRefs = [] := by
  refine ⟨{ newCluster cv agentAttrs with
    references := [Ref.waypoint (some ⟨"w1", 1, 2, 1 / 2⟩)] }, ?_, ?_, rfl, rfl, rfl⟩
  · rw [readFromFile_valid cv _ _ (by decide)]
    simp only [sampleStream, feed_cons, feed_nil, waypointW1]
    rw [apply_agentEnd cv _ _ rfl rfl, apply_otherEnd cv _ _ rfl (by decide),
      apply_addwaypoint cv _ _ rfl rfl, apply_agent cv _ _ rfl rfl,
      apply_otherEnd cv _ _ rfl (by decide), apply_waypoint cv _ _ rfl rfl]
    simp [State.init, Scene.empty, Scene.addWaypoint, Scene.addAgentCluster,
      Scene.clusterAddWaypoint, Scene.getWaypointByName, AgentCluster.addWaypoint, startElement,
      value, Conv.toDouble, h1, h2, hr, newCluster, agentAttrs]
  · simp [newCluster, agentAttrs, value, Conv.toInt, hn]

/-! ## The theorems at concrete inputs -/

/-- Claim C1 at a concrete scenario: `w1` and `q1` are declared, then an agent
block adds `w1`, `q1` and `w1` again. -/
theorem cluster_references_exact_witness :
    ∃ (c : AgentCluster ℚ) (ws : List (AreaWaypoint ℚ)) (qs : List (WaitingQueue ℚ)),
      (readFromFile sampleConv (some (sampleDecls ++ startElement "agent" agentAttrs ::
        sampleBlock ++ [endElement "agent"])) (State.init Scene.empty)).1 = true ∧
      (readFromFile sampleConv (some (sampleDecls ++ startElement "agent" agentAttrs ::
        sampleBlock ++ [endElement "agent"])) (State.init Scene.empty)).2.currentAgents = none ∧
      (readFromFile sampleConv (some (sampleDecls ++ startElement "agent" agentAttrs ::
        sampleBlock ++ [endElement "agent"])) (State.init Scene.empty)).2.SCENE.agentClusters
          = (readFromFile sampleConv (some sampleDecls)
              (State.init Scene.empty)).2.SCENE.agentClusters ++ [c] ∧
      c.count = sampleConv.toInt (value agentAttrs "n") ∧
      c.waypointRefs = ws.map some ∧
      ws.map (fun w => w.id) = addedWaypointIds sampleBlock ∧
      (∀ w ∈ ws, w ∈ declaredWaypoints sampleConv sampleDecls) ∧
      c.queueRefs = qs.map some ∧
      qs.map (fun q => q.id) = addedQueueIds sampleBlock ∧
      (∀ q ∈ qs, q ∈ declaredQueues sampleConv sampleDecls) :=
  cluster_references_exact sampleConv (State.init Scene.empty) sampleDecls sampleBlock agentAttrs
    (by decide) (by decide) (by decide) (by decide) (by decide) (by decide)

/-- Claim C2 under the sample conversion. -/
theorem end_to_end_example_witness :
    ∃ c : AgentCluster ℚ,
      readFromFile sampleConv (some sampleStream) (State.init Scene.empty)
        = (true, ⟨none, ⟨[], [], [⟨"w1", 1, 2, 1 / 2⟩], [], [], [c]⟩, [Lookup.waypoint "w1"]⟩) ∧
      c.count = 3 ∧ c.references = [Ref.waypoint (some ⟨"w1", 1, 2, 1 / 2⟩)] ∧
      c.waypointRefs = [some ⟨"w1", 1, 2, 1 / 2⟩] ∧ c.queueRefs = [] :=
  end_to_end_example sampleConv rfl rfl rfl rfl

/-- Claim C3 at a state whose registry holds `w1`: an `addwaypoint` naming `w1`
outside of any agent block changes nothing. -/
theorem add_record_outside_block_witness :
    closedState.currentAgents = none ∧
    closedState.SCENE.getWaypointByName "w1" = some ⟨"w1", 1, 2, 1 / 2⟩ ∧
    processData sampleConv (readerAt (startElement "addwaypoint" [("id", "w1")])) closedState
      = closedState :=
  ⟨rfl, rfl,
    (add_record_outside_block sampleConv (readerAt (startElement "addwaypoint" [("id", "w1")]))
      closedState rfl rfl (Or.inl rfl)).1⟩

/-- Claim C7 at an obstacle record whose `y1` does not parse and whose `y2` is
missing: both coordinates are 0. -/
theorem obstacle_record_lenient_witness :
    (processData sampleConv
      (readerAt (startElement "obstacle" [("x1", "1"), ("y1", "abc"), ("x2", "2")]))
      closedState).SCENE.obstacles = [⟨1, 0, 2, 0⟩] :=
  (obstacle_record_lenient sampleConv
    (readerAt (startElement "obstacle" [("x1", "1"), ("y1", "abc"), ("x2", "2")]))
    closedState rfl rfl).1.trans (by decide)

/-- Claim C8 at a record with the unknown tag `bogus`, read while a cluster is
open. -/
theorem unknown_record_ignored_witness :
    processData sampleConv (readerAt (startElement "bogus" [("id", "w1")])) openState
      = openState :=
  (unknown_record_ignored sampleConv (readerAt (startElement "bogus" [("id", "w1")])) openState
    rfl (by decide)).1

/-- Claim C10 at a waypoint record read inside an agent block: the cluster stays
open. -/
theorem slot_written_only_by_agent_records_witness :
    (processData sampleConv (readerAt waypointW1) openState).currentAgents = some 0 :=
  (slot_written_only_by_agent_records sampleConv (readerAt waypointW1) openState
    ⟨by decide, by decide⟩).1

/-- Claim C9, amended, at a state whose only cluster A is open and whose
registry holds `w1` and `q1`: after a second `agent` start record an
`addwaypoint` naming `w1`, and likewise an `addqueue` naming `q1`, lands in the
new cluster B, and A keeps its empty reference list. -/
theorem nested_agent_overwrites_slot_witness :
    queueState.currentAgents = some 0 ∧
    (readFromFile sampleConv
        (some [startElement "agent" agentAttrs, startElement "addwaypoint" [("id", "w1")]])
        queueState).2.SCENE.agentClusters
      = [newCluster sampleConv agentAttrs,
          (newCluster sampleConv agentAttrs).addWaypoint (some ⟨"w1", 1, 2, 1 / 2⟩)] ∧
    (readFromFile sampleConv
        (some [startElement "agent" agentAttrs, startElement "addqueue" [("id", "q1")]])
        queueState).2.SCENE.agentClusters
      = [newCluster sampleConv agentAttrs,
          (newCluster sampleConv agentAttrs).addWaitingQueue (some ⟨"q1", (3, 1), 0⟩)] :=
  have h := nested_agent_overwrites_slot sampleConv queueState agentAttrs agentAttrs
    [("id", "w1")]
  have h' := nested_agent_overwrites_slot sampleConv queueState agentAttrs agentAttrs
    [("id", "q1")]
  ⟨rfl, congrArg (fun r => r.2.SCENE.agentClusters) (h.2.1 _ rfl),
    congrArg (fun r => r.2.SCENE.agentClusters) (h'.2.2.1 _ rfl)⟩

end Pedsim
